import Mathlib

/-!
Verification development for the PHENIX back-office system
(`produits` app: products, stock entries, sales, expenses).

The Django models and viewset actions are shallowly embedded:
`DecimalField` values become `Rat`, `DateField` values become `Int`
(a day count), status lookups become their `code` strings, and the
database is a total map from product ids to `Product` records.
Each embedded definition mirrors one function of the source
(`produits/models.py`, `produits/views.py`).
-/

namespace Phenix

/-- Embeds `produits.models.Product` (the fields the stock logic reads):
`name`, `current_stock`, `alert_threshold`. -/
structure Product where
  name : String
  current_stock : Rat
  alert_threshold : Rat
  deriving Repr, DecidableEq

/-- Embeds the `Product.is_low_stock` property:
`return self.current_stock <= self.alert_threshold`. -/
def Product.is_low_stock (p : Product) : Bool :=
  decide (p.current_stock ≤ p.alert_threshold)

/-- The product table: a total map from product id to record
(`Product.objects` keyed by pk). -/
abbrev Inventory := Nat → Product

/-- `product.current_stock = q; product.save()` for the row `i`,
leaving every other row unchanged. -/
def setStock (inv : Inventory) (i : Nat) (q : Rat) : Inventory :=
  fun j => if j = i then { inv i with current_stock := q } else inv j

/-- Embeds `produits.models.SaleItem` (fields read by `SaleItem.save`
and `SaleViewSet.complete_sale`). `productId` is the foreign key pk. -/
structure SaleItem where
  productId : Nat
  quantity : Rat
  unit_price : Rat
  discount : Rat
  tax_rate : Rat
  total_price : Rat
  deriving Repr, DecidableEq

/-- Embeds `SaleItem.save`:
`base_price = quantity * unit_price`;
`discounted_price = base_price - discount`;
`tax_amount = discounted_price * (tax_rate / 100)`;
`total_price = discounted_price + tax_amount`. -/
def SaleItem.save (it : SaleItem) : SaleItem :=
  let base_price := it.quantity * it.unit_price
  let discounted_price := base_price - it.discount
  let tax_amount := discounted_price * (it.tax_rate / 100)
  { it with total_price := discounted_price + tax_amount }

/-- The `MinValueValidator(0)` / `MaxValueValidator(100)` declared on
`SaleItem.discount` and `SaleItem.tax_rate`. -/
def SaleItem.fieldValid (it : SaleItem) : Prop :=
  0 ≤ it.discount ∧ 0 ≤ it.tax_rate ∧ it.tax_rate ≤ 100

/-- Embeds `produits.models.Sale` (fields read by `Sale.save` and the
`complete_sale` / `cancel_sale` actions). `statusCode` is
`sale.status.code`, the `code` of the `SaleStatus` row. -/
structure Sale where
  statusCode : String
  subtotal : Rat
  discount_amount : Rat
  tax_amount : Rat
  total_amount : Rat
  notes : String
  items : List SaleItem
  deriving Repr, DecidableEq

/-- Embeds `Sale.save`:
`self.total_amount = self.subtotal - self.discount_amount + self.tax_amount`
then the ordinary save. -/
def Sale.save (s : Sale) : Sale :=
  { s with total_amount := s.subtotal - s.discount_amount + s.tax_amount }

/-- Result of a sale action: the product table and the sale row as left
in the database, plus the `error` field of the JSON response (`none` on
the success response). -/
structure SaleActionResult where
  inv : Inventory
  sale : Sale
  error : Option String

/-- The decrement loop of `SaleViewSet.complete_sale`: for each item in
order, if `product.current_stock >= item.quantity` the stock is
decremented and saved, otherwise the view returns the
`Insufficient stock for <name>` error at once — the decrements already
saved for earlier items persist. -/
def decrementLoop (inv : Inventory) : List SaleItem → Inventory × Option String
  | [] => (inv, none)
  | it :: rest =>
    let product := inv it.productId
    if product.current_stock ≥ it.quantity then
      decrementLoop (setStock inv it.productId (product.current_stock - it.quantity)) rest
    else
      (inv, some ("Insufficient stock for " ++ product.name))

/-- Embeds `SaleViewSet.complete_sale`: reject when
`sale.status.code == 'completed'`; otherwise set the status to
`completed`, save the sale (which recomputes `total_amount`), then run
the stock decrement loop over `sale.items.all()`. -/
def complete_sale (inv : Inventory) (sale : Sale) : SaleActionResult :=
  if sale.statusCode = "completed" then
    { inv := inv, sale := sale, error := some "Sale is already completed" }
  else
    let sale := Sale.save { sale with statusCode := "completed" }
    let r := decrementLoop inv sale.items
    { inv := r.1, sale := sale, error := r.2 }

/-- Embeds `SaleViewSet.cancel_sale`: reject when
`sale.status.code == 'cancelled'`; otherwise set the status to
`cancelled`, append `\nCancelled: <reason>` to the notes and save.
No stock is touched. -/
def cancel_sale (inv : Inventory) (sale : Sale) (reason : String) : SaleActionResult :=
  if sale.statusCode = "cancelled" then
    { inv := inv, sale := sale, error := some "Sale is already cancelled" }
  else
    let sale := Sale.save { sale with
      statusCode := "cancelled",
      notes := sale.notes ++ "\nCancelled: " ++ reason }
    { inv := inv, sale := sale, error := none }

/-- Embeds `produits.models.EntryItem` (fields read by `EntryItem.save`
and `EntryViewSet.validate_entry`). -/
structure EntryItem where
  productId : Nat
  quantity : Rat
  unit_price : Rat
  total_price : Rat
  deriving Repr, DecidableEq

/-- Embeds `EntryItem.save`:
`self.total_price = self.quantity * self.unit_price` then the ordinary
save. -/
def EntryItem.save (it : EntryItem) : EntryItem :=
  { it with total_price := it.quantity * it.unit_price }

/-- The `MinValueValidator(0.01)` declared on `EntryItem.quantity`. -/
def EntryItem.quantityValid (it : EntryItem) : Prop :=
  1 / 100 ≤ it.quantity

/-- Embeds `produits.models.Entry` (the fields `validate_entry` reads):
`status` is the CharField whose declared choices are
`DRAFT`, `PENDING`, `COMPLETED`, `CANCELLED` (default `COMPLETED`). -/
structure Entry where
  status : String
  items : List EntryItem
  deriving Repr, DecidableEq

/-- The declared `choices` of `Entry.status`. -/
def Entry.STATUS_CHOICES : List String :=
  ["DRAFT", "PENDING", "COMPLETED", "CANCELLED"]

/-- Result of `validate_entry`: the product table and entry row as left
in the database, plus the `error` field of the JSON response. -/
structure EntryActionResult where
  inv : Inventory
  entry : Entry
  error : Option String

/-- The credit loop of `EntryViewSet.validate_entry`: for each item,
`product.current_stock += item.quantity; product.save()`. -/
def creditLoop (inv : Inventory) : List EntryItem → Inventory
  | [] => inv
  | it :: rest =>
    creditLoop
      (setStock inv it.productId ((inv it.productId).current_stock + it.quantity)) rest

/-- Embeds `EntryViewSet.validate_entry`: reject when
`entry.status == 'validated'`; otherwise set the status to `validated`,
save the entry, then credit every item's quantity to its product. -/
def validate_entry (inv : Inventory) (entry : Entry) : EntryActionResult :=
  if entry.status = "validated" then
    { inv := inv, entry := entry, error := some "Entry is already validated" }
  else
    let entry := { entry with status := "validated" }
    { inv := creditLoop inv entry.items, entry := entry, error := none }

/-- A Python number together with its runtime type: Django DecimalField
attributes are `decimal.Decimal`, and `float(...)` yields `float`. -/
inductive PyNumber where
  | decimal (v : Rat)
  | float (v : Rat)
  deriving Repr, DecidableEq

/-- The numeric value carried by a `PyNumber`. -/
def PyNumber.val : PyNumber → Rat
  | .decimal v => v
  | .float v => v

/-- Python `+` on numbers: like types add normally, but
`decimal.Decimal` refuses mixed arithmetic with `float` (each operand
answers NotImplemented), so the interpreter raises `TypeError`. -/
def pyAdd : PyNumber → PyNumber → Except String PyNumber
  | .decimal a, .decimal b => .ok (.decimal (a + b))
  | .float a, .float b => .ok (.float (a + b))
  | _, _ => .error "TypeError: unsupported operand types for +: decimal.Decimal and float"

/-- Outcome of `ProductViewSet.adjust_stock`: the product row as left in
the database, the `error` field of a 4xx JSON response if one is
returned, and `exn` for an exception the view does not catch
(an HTTP 500). -/
structure AdjustStockResult where
  product : Product
  error : Option String
  exn : Option String

/-- Embeds `ProductViewSet.adjust_stock` at the runtime types:
`product.current_stock` is a `Decimal` (DecimalField) while
`adjustment = float(adjustment)` is a `float`, so the very first use,
the comparison `product.current_stock + adjustment < 0`, raises
`TypeError` — and the surrounding `except ValueError` does not catch a
`TypeError`. The guard, the `Stock cannot be negative` rejection and
the stock update are therefore dead code: every call raises and the
product row is never modified. -/
def adjust_stock (product : Product) (adjustment : Rat) : AdjustStockResult :=
  match pyAdd (.decimal product.current_stock) (.float adjustment) with
  | .error e => { product := product, error := none, exn := some e }
  | .ok s =>
    if s.val < 0 then
      { product := product, error := some "Stock cannot be negative", exn := none }
    else
      { product := { product with current_stock := s.val }, error := none, exn := none }

/-- Embeds `produits.models.Expense` (the fields `generate_expense`
writes). `expense_date` is a day count; `status` is a ForeignKey to
`ExpenseStatus`, so a created row holds the pk of the referenced status
row (`statusId`). -/
structure Expense where
  description : String
  categoryId : Nat
  amount : Rat
  expense_date : Int
  statusId : Nat
  deriving Repr, DecidableEq

/-- A value handed to a ForeignKey attribute in Python: either a model
instance of the related type (kept as its pk) or a plain string. -/
inductive FKValue where
  | modelRef (pk : Nat)
  | pyString (s : String)
  deriving Repr, DecidableEq

/-- Django's forward many-to-one descriptor for `Expense.status`
(ForeignKey to `ExpenseStatus`): assigning anything other than an
`ExpenseStatus` instance raises `ValueError` at keyword assignment,
before any row is written. -/
def assignExpenseStatus : FKValue → Except String Nat
  | .modelRef pk => .ok pk
  | .pyString s =>
    .error ("ValueError: Cannot assign " ++ s
      ++ ": Expense.status must be a ExpenseStatus instance")

/-- Embeds `produits.models.RecurringExpense` (the fields
`generate_expense` reads). `next_due_date` is a day count. -/
structure RecurringExpense where
  name : String
  categoryId : Nat
  amount : Rat
  frequency : String
  next_due_date : Int
  deriving Repr, DecidableEq

/-- The declared `choices` of `RecurringExpense.frequency`
(note: uppercase). -/
def RecurringExpense.FREQUENCY_CHOICES : List String :=
  ["WEEKLY", "MONTHLY", "QUARTERLY", "YEARLY"]

/-- Outcome of `RecurringExpenseViewSet.generate_expense`: the created
`Expense` row if any, the `RecurringExpense` row as left in the
database, and `exn` for an exception the view does not catch. -/
structure GenerateExpenseResult where
  expense : Option Expense
  template : RecurringExpense
  exn : Option String

/-- Embeds `RecurringExpenseViewSet.generate_expense` at the model
declarations: `Expense.objects.create` is called with
`status='pending'`, a plain string, but `Expense.status` is a
ForeignKey to `ExpenseStatus`, so the keyword assignment raises
`ValueError` and no row is created; the view catches nothing, and the
`next_due_date` advance below the create (which compares `frequency`
to the lowercase strings `'monthly'` / `'weekly'` / `'yearly'`, never
the declared uppercase choices) is never reached. -/
def generate_expense (re : RecurringExpense) (today : Int) : GenerateExpenseResult :=
  match assignExpenseStatus (.pyString "pending") with
  | .error e => { expense := none, template := re, exn := some e }
  | .ok statusId =>
    let expense : Expense :=
      { description := re.name ++ " (" ++ re.frequency ++ ")"
        categoryId := re.categoryId
        amount := re.amount
        expense_date := today
        statusId := statusId }
    let re :=
      if re.frequency = "monthly" then { re with next_due_date := re.next_due_date + 30 }
      else if re.frequency = "weekly" then { re with next_due_date := re.next_due_date + 7 }
      else if re.frequency = "yearly" then { re with next_due_date := re.next_due_date + 365 }
      else re
    { expense := some expense, template := re, exn := none }

/-- Sum of the quantities of the items of a given product — what the
credit loop adds to that product in total. -/
def sumQtyFor (items : List EntryItem) (i : Nat) : Rat :=
  ((items.filter (fun it => it.productId == i)).map EntryItem.quantity).sum

theorem sumQtyFor_nil (i : Nat) : sumQtyFor [] i = 0 := rfl

theorem sumQtyFor_cons (it : EntryItem) (rest : List EntryItem) (i : Nat) :
    sumQtyFor (it :: rest) i =
      (if it.productId = i then it.quantity else 0) + sumQtyFor rest i := by
  by_cases h : it.productId = i <;>
    simp [sumQtyFor, List.filter_cons, h]

theorem sumQtyFor_nonneg (items : List EntryItem) (i : Nat)
    (hq : ∀ it ∈ items, EntryItem.quantityValid it) :
    0 ≤ sumQtyFor items i := by
  induction items with
  | nil => simp [sumQtyFor_nil]
  | cons it rest ih =>
    have h1 : (0:Rat) ≤ it.quantity := by
      have := hq it (List.mem_cons_self it rest)
      unfold EntryItem.quantityValid at this
      linarith
    have h2 := ih (fun x hx => hq x (List.mem_cons_of_mem it hx))
    rw [sumQtyFor_cons]
    by_cases h : it.productId = i <;> simp [h] <;> linarith

/-- The credit loop adds to each product exactly the sum of the
quantities of its items, and never touches `name` or
`alert_threshold`. -/
theorem creditLoop_stock (items : List EntryItem) (inv : Inventory) (i : Nat) :
    ((creditLoop inv items) i).current_stock
      = (inv i).current_stock + sumQtyFor items i ∧
    ((creditLoop inv items) i).name = (inv i).name ∧
    ((creditLoop inv items) i).alert_threshold = (inv i).alert_threshold := by
  induction items generalizing inv with
  | nil => simp [creditLoop, sumQtyFor_nil]
  | cons it rest ih =>
    have h := ih (setStock inv it.productId
      ((inv it.productId).current_stock + it.quantity))
    rw [creditLoop, sumQtyFor_cons]
    by_cases hp : it.productId = i
    · subst hp
      refine ⟨?_, ?_, ?_⟩
      · rw [h.1]
        simp [setStock]
        ring
      · rw [h.2.1]
        simp [setStock]
      · rw [h.2.2]
        simp [setStock]
    · have hne : ¬ i = it.productId := fun hc => hp hc.symm
      refine ⟨?_, ?_, ?_⟩ <;>
        simp [h.1, h.2.1, h.2.2, setStock, hne, hp]

/-- The decrement loop keeps every stock non-negative (it only ever
replaces a stock by `stock - qty` under the guard `stock ≥ qty`), on
the error path as well. -/
theorem decrementLoop_nonneg (items : List SaleItem) (inv : Inventory)
    (h : ∀ i, 0 ≤ (inv i).current_stock) :
    ∀ i, 0 ≤ ((decrementLoop inv items).1 i).current_stock := by
  induction items generalizing inv with
  | nil => simpa [decrementLoop] using h
  | cons it rest ih =>
    rw [decrementLoop]
    by_cases hc : (inv it.productId).current_stock ≥ it.quantity
    · simp only [hc, if_pos]
      refine ih _ (fun i => ?_)
      by_cases hi : i = it.productId
      · simp [setStock, hi]
        linarith
      · simpa [setStock, hi] using h i
    · simpa [hc] using h

end Phenix

namespace Phenix

/-- Claim C9. For every `Product`, `is_low_stock` is true iff
`current_stock ≤ alert_threshold`; in particular a product with
stock 5 / threshold 5 is low, and one with stock 6 / threshold 5 is not. -/
theorem is_low_stock_iff :
    (∀ p : Product, p.is_low_stock = true ↔ p.current_stock ≤ p.alert_threshold) ∧
    (Product.is_low_stock ⟨"boundary", 5, 5⟩ = true) ∧
    (Product.is_low_stock ⟨"above", 6, 5⟩ = false) := by
  refine ⟨fun p => ?_, by decide, by decide⟩
  simp [Product.is_low_stock]

/-- Claim C6. After every `SaleItem.save`, `total_price` equals
`(quantity * unit_price - discount) * (1 + tax_rate / 100)`; the
hypotheses are the field validators (`discount ≥ 0`, `0 ≤ tax_rate ≤ 100`). -/
theorem saleItem_save_total_price (it : SaleItem) (hv : it.fieldValid) :
    (SaleItem.save it).total_price =
      (it.quantity * it.unit_price - it.discount) * (1 + it.tax_rate / 100) := by
  simp only [SaleItem.save]
  ring

/-- Witness for C6: the spec example, qty 3 at price 100, discount 10,
tax 10 percent, gives `total_price = 319`. -/
theorem saleItem_save_total_price_witness :
    (SaleItem.save ⟨0, 3, 100, 10, 10, 0⟩).total_price = 319 := by
  have h := saleItem_save_total_price ⟨0, 3, 100, 10, 10, 0⟩
    (by refine ⟨?_, ?_, ?_⟩ <;> norm_num [SaleItem.fieldValid])
  rw [h]
  norm_num

/-- Claim C7. After every `Sale.save`, `total_amount` is
`subtotal - discount_amount + tax_amount`, and any client-supplied
`total_amount` is irrelevant: saving after overwriting the field with an
arbitrary value gives the same record. -/
theorem sale_save_total_amount (s : Sale) (t : Rat) :
    (Sale.save s).total_amount = s.subtotal - s.discount_amount + s.tax_amount ∧
    Sale.save { s with total_amount := t } = Sale.save s := by
  constructor
  · rfl
  · cases s
    rfl

/-- Claim C1 (bug exhibit). A sale of item (product 0, qty 1) then
item (product 1, qty 5) against stocks 1 and 0: the view answers
`Insufficient stock for B`, yet product 0 has already been decremented
from 1 to 0 and the sale has been saved as `completed` — the failure is
not atomic. -/
theorem complete_sale_partial_decrement_bug :
    (complete_sale
        (fun i => if i = 0 then ⟨"A", 1, 0⟩ else ⟨"B", 0, 0⟩)
        ⟨"pending", 7, 0, 0, 7, "", [⟨0, 1, 2, 0, 0, 2⟩, ⟨1, 5, 3, 0, 0, 15⟩]⟩).error
        = some "Insufficient stock for B" ∧
    ((complete_sale
        (fun i => if i = 0 then ⟨"A", 1, 0⟩ else ⟨"B", 0, 0⟩)
        ⟨"pending", 7, 0, 0, 7, "", [⟨0, 1, 2, 0, 0, 2⟩, ⟨1, 5, 3, 0, 0, 15⟩]⟩).inv 0).current_stock
        = 0 ∧
    (complete_sale
        (fun i => if i = 0 then ⟨"A", 1, 0⟩ else ⟨"B", 0, 0⟩)
        ⟨"pending", 7, 0, 0, 7, "", [⟨0, 1, 2, 0, 0, 2⟩, ⟨1, 5, 3, 0, 0, 15⟩]⟩).sale.statusCode
        = "completed" := by
  refine ⟨?_, ?_, ?_⟩ <;>
    simp [complete_sale, decrementLoop, setStock, Sale.save] <;>
    norm_num [setStock]

/-- Claim C8 (counterexample). A sale whose status code is `cancelled`
is in a terminal status, yet `complete_sale` does not reject it: the
success response is returned, the status is overwritten to `completed`
and stock is decremented. -/
theorem complete_sale_cancelled_not_rejected :
    (complete_sale (fun _ => ⟨"P", 5, 0⟩)
        ⟨"cancelled", 2, 0, 0, 2, "", [⟨0, 1, 2, 0, 0, 2⟩]⟩).error = none ∧
    (complete_sale (fun _ => ⟨"P", 5, 0⟩)
        ⟨"cancelled", 2, 0, 0, 2, "", [⟨0, 1, 2, 0, 0, 2⟩]⟩).sale.statusCode = "completed" ∧
    ((complete_sale (fun _ => ⟨"P", 5, 0⟩)
        ⟨"cancelled", 2, 0, 0, 2, "", [⟨0, 1, 2, 0, 0, 2⟩]⟩).inv 0).current_stock = 4 := by
  refine ⟨?_, ?_, ?_⟩ <;>
    simp [complete_sale, decrementLoop, setStock, Sale.save] <;>
    norm_num [setStock]

/-- Claim C8 (amended). `complete_sale` rejects exactly the sales whose
status code is already `completed`: such a call returns the
`Sale is already completed` error and leaves the product table and the
sale row unchanged. Cancelled sales are not rejected. -/
theorem complete_sale_already_completed_rejected (inv : Inventory) (s : Sale)
    (h : s.statusCode = "completed") :
    (complete_sale inv s).error = some "Sale is already completed" ∧
    (complete_sale inv s).inv = inv ∧
    (complete_sale inv s).sale = s := by
  simp [complete_sale, h]

/-- Witness for the amended C8 at a concrete completed sale. -/
theorem complete_sale_already_completed_rejected_witness :
    (complete_sale (fun _ => ⟨"P", 5, 0⟩)
        ⟨"completed", 2, 0, 0, 2, "", [⟨0, 1, 2, 0, 0, 2⟩]⟩).error
      = some "Sale is already completed" ∧
    (complete_sale (fun _ => ⟨"P", 5, 0⟩)
        ⟨"completed", 2, 0, 0, 2, "", [⟨0, 1, 2, 0, 0, 2⟩]⟩).inv = (fun _ => ⟨"P", 5, 0⟩) ∧
    (complete_sale (fun _ => ⟨"P", 5, 0⟩)
        ⟨"completed", 2, 0, 0, 2, "", [⟨0, 1, 2, 0, 0, 2⟩]⟩).sale
      = ⟨"completed", 2, 0, 0, 2, "", [⟨0, 1, 2, 0, 0, 2⟩]⟩ :=
  complete_sale_already_completed_rejected (fun _ => ⟨"P", 5, 0⟩)
    ⟨"completed", 2, 0, 0, 2, "", [⟨0, 1, 2, 0, 0, 2⟩]⟩ rfl

/-- Claim C10. For every sale not already cancelled — including a
completed one whose items have decremented stock — `cancel_sale`
succeeds, sets the status to `cancelled`, appends the reason to the
notes, and leaves the whole product table (every `current_stock`)
unchanged: cancellation never restores stock. -/
theorem cancel_sale_spec (inv : Inventory) (s : Sale) (reason : String)
    (h : s.statusCode ≠ "cancelled") :
    (cancel_sale inv s reason).error = none ∧
    (cancel_sale inv s reason).sale.statusCode = "cancelled" ∧
    (cancel_sale inv s reason).sale.notes = s.notes ++ "\nCancelled: " ++ reason ∧
    (cancel_sale inv s reason).inv = inv := by
  simp [cancel_sale, h, Sale.save]

/-- Witness for C10: cancelling a completed sale succeeds and leaves
stock untouched. -/
theorem cancel_sale_spec_witness :
    (cancel_sale (fun _ => ⟨"P", 4, 0⟩)
        ⟨"completed", 2, 0, 0, 2, "n", [⟨0, 1, 2, 0, 0, 2⟩]⟩ "mistake").error = none ∧
    (cancel_sale (fun _ => ⟨"P", 4, 0⟩)
        ⟨"completed", 2, 0, 0, 2, "n", [⟨0, 1, 2, 0, 0, 2⟩]⟩ "mistake").sale.statusCode
      = "cancelled" ∧
    (cancel_sale (fun _ => ⟨"P", 4, 0⟩)
        ⟨"completed", 2, 0, 0, 2, "n", [⟨0, 1, 2, 0, 0, 2⟩]⟩ "mistake").sale.notes
      = "n" ++ "\nCancelled: " ++ "mistake" ∧
    (cancel_sale (fun _ => ⟨"P", 4, 0⟩)
        ⟨"completed", 2, 0, 0, 2, "n", [⟨0, 1, 2, 0, 0, 2⟩]⟩ "mistake").inv
      = (fun _ => ⟨"P", 4, 0⟩) :=
  cancel_sale_spec (fun _ => ⟨"P", 4, 0⟩)
    ⟨"completed", 2, 0, 0, 2, "n", [⟨0, 1, 2, 0, 0, 2⟩]⟩ "mistake" (by decide)

end Phenix

namespace Phenix

/-- Claim C2 (counterexample). An entry whose status is `COMPLETED`
(a declared choice and the model default) has already been completed,
yet `validate_entry` does not reject it: the success response is
returned, the stock is credited and the status is overwritten to
`validated` — the guard compares against `'validated'`, not
`'COMPLETED'`. -/
theorem validate_entry_completed_status_not_rejected :
    "COMPLETED" ∈ Entry.STATUS_CHOICES ∧
    (validate_entry (fun _ => ⟨"A", 0, 0⟩) ⟨"COMPLETED", [⟨0, 5, 10, 50⟩]⟩).error = none ∧
    ((validate_entry (fun _ => ⟨"A", 0, 0⟩)
        ⟨"COMPLETED", [⟨0, 5, 10, 50⟩]⟩).inv 0).current_stock = 5 ∧
    (validate_entry (fun _ => ⟨"A", 0, 0⟩)
        ⟨"COMPLETED", [⟨0, 5, 10, 50⟩]⟩).entry.status = "validated" := by
  refine ⟨by simp [Entry.STATUS_CHOICES], ?_, ?_, ?_⟩ <;>
    simp [validate_entry, creditLoop, setStock]

/-- Claim C2 (amended). Once `validate_entry` has succeeded on an entry
(leaving it in status `validated`), invoking the transition again is
rejected with the `Entry is already validated` error and reapplies
nothing: the product table and the entry row are returned unchanged, so
no item's quantity is credited a second time. -/
theorem validate_entry_not_reapplied (inv : Inventory) (e : Entry)
    (h : (validate_entry inv e).error = none) :
    (validate_entry (validate_entry inv e).inv (validate_entry inv e).entry).error
      = some "Entry is already validated" ∧
    (validate_entry (validate_entry inv e).inv (validate_entry inv e).entry).inv
      = (validate_entry inv e).inv ∧
    (validate_entry (validate_entry inv e).inv (validate_entry inv e).entry).entry
      = (validate_entry inv e).entry := by
  by_cases hs : e.status = "validated"
  · simp [validate_entry, hs] at h
  · simp [validate_entry, hs]

/-- Witness for the amended C2: a pending entry validated once, then
rechecked. -/
theorem validate_entry_not_reapplied_witness :
    (validate_entry
        (validate_entry (fun _ => ⟨"A", 1, 0⟩) ⟨"PENDING", [⟨0, 2, 10, 20⟩]⟩).inv
        (validate_entry (fun _ => ⟨"A", 1, 0⟩) ⟨"PENDING", [⟨0, 2, 10, 20⟩]⟩).entry).error
      = some "Entry is already validated" ∧
    (validate_entry
        (validate_entry (fun _ => ⟨"A", 1, 0⟩) ⟨"PENDING", [⟨0, 2, 10, 20⟩]⟩).inv
        (validate_entry (fun _ => ⟨"A", 1, 0⟩) ⟨"PENDING", [⟨0, 2, 10, 20⟩]⟩).entry).inv
      = (validate_entry (fun _ => ⟨"A", 1, 0⟩) ⟨"PENDING", [⟨0, 2, 10, 20⟩]⟩).inv ∧
    (validate_entry
        (validate_entry (fun _ => ⟨"A", 1, 0⟩) ⟨"PENDING", [⟨0, 2, 10, 20⟩]⟩).inv
        (validate_entry (fun _ => ⟨"A", 1, 0⟩) ⟨"PENDING", [⟨0, 2, 10, 20⟩]⟩).entry).entry
      = (validate_entry (fun _ => ⟨"A", 1, 0⟩) ⟨"PENDING", [⟨0, 2, 10, 20⟩]⟩).entry :=
  validate_entry_not_reapplied (fun _ => ⟨"A", 1, 0⟩) ⟨"PENDING", [⟨0, 2, 10, 20⟩]⟩
    (by simp [validate_entry])

/-- Claim C3. For every entry in a non-terminal status (`DRAFT` or
`PENDING`), `validate_entry` succeeds and raises every product's
`current_stock` by exactly the (summed) quantity of that product's
entry items, and after every `EntryItem.save` the item's `total_price`
is `quantity * unit_price`. -/
theorem validate_entry_credits_stock (inv : Inventory) (e : Entry)
    (h : e.status = "DRAFT" ∨ e.status = "PENDING") :
    (validate_entry inv e).error = none ∧
    (∀ i, ((validate_entry inv e).inv i).current_stock
        = (inv i).current_stock + sumQtyFor e.items i) ∧
    (∀ it : EntryItem, (EntryItem.save it).total_price = it.quantity * it.unit_price) := by
  have hs : ¬ e.status = "validated" := by
    rcases h with h | h <;> simp [h]
  refine ⟨?_, fun i => ?_, fun it => rfl⟩
  · simp [validate_entry, hs]
  · simp only [validate_entry, hs, if_neg, ite_false]
    exact (creditLoop_stock e.items inv i).1

/-- Witness for C3: the spec example, a draft entry of (product 0,
qty 5, price 10) and (product 1, qty 2, price 20) against stocks 3 and
4, yields stocks 8 and 6, and the saved items price to 50 and 40. -/
theorem validate_entry_credits_stock_witness :
    (validate_entry (fun i => if i = 0 then ⟨"A", 3, 0⟩ else ⟨"B", 4, 0⟩)
        ⟨"DRAFT", [⟨0, 5, 10, 0⟩, ⟨1, 2, 20, 0⟩]⟩).error = none ∧
    ((validate_entry (fun i => if i = 0 then ⟨"A", 3, 0⟩ else ⟨"B", 4, 0⟩)
        ⟨"DRAFT", [⟨0, 5, 10, 0⟩, ⟨1, 2, 20, 0⟩]⟩).inv 0).current_stock = 8 ∧
    ((validate_entry (fun i => if i = 0 then ⟨"A", 3, 0⟩ else ⟨"B", 4, 0⟩)
        ⟨"DRAFT", [⟨0, 5, 10, 0⟩, ⟨1, 2, 20, 0⟩]⟩).inv 1).current_stock = 6 ∧
    (EntryItem.save ⟨0, 5, 10, 0⟩).total_price = 50 ∧
    (EntryItem.save ⟨1, 2, 20, 0⟩).total_price = 40 := by
  have h := validate_entry_credits_stock
    (fun i => if i = 0 then ⟨"A", 3, 0⟩ else ⟨"B", 4, 0⟩)
    ⟨"DRAFT", [⟨0, 5, 10, 0⟩, ⟨1, 2, 20, 0⟩]⟩ (Or.inl rfl)
  refine ⟨h.1, ?_, ?_, ?_, ?_⟩
  · rw [h.2.1 0]
    norm_num [sumQtyFor]
  · rw [h.2.1 1]
    norm_num [sumQtyFor]
  · rw [h.2.2 ⟨0, 5, 10, 0⟩]
    norm_num
  · rw [h.2.2 ⟨1, 2, 20, 0⟩]
    norm_num

end Phenix

namespace Phenix

/-- Claim C4 (bug exhibit). For a recurring expense with frequency
`MONTHLY` — a declared choice value — one `generate_expense` call
creates no Expense at all and leaves `next_due_date` unchanged: the
`Expense.objects.create(..., status='pending', ...)` call assigns a
plain string to the `ExpenseStatus` ForeignKey and raises an uncaught
`ValueError`, so the view fails before the creation and before the
(itself case-mismatched) `next_due_date` advance. -/
theorem generate_expense_create_raises_bug :
    "MONTHLY" ∈ RecurringExpense.FREQUENCY_CHOICES ∧
    (generate_expense ⟨"Rent", 3, 5000, "MONTHLY", 0⟩ 100).exn
      = some "ValueError: Cannot assign pending: Expense.status must be a ExpenseStatus instance" ∧
    (generate_expense ⟨"Rent", 3, 5000, "MONTHLY", 0⟩ 100).expense = none ∧
    (generate_expense ⟨"Rent", 3, 5000, "MONTHLY", 0⟩ 100).template.next_due_date = 0 := by
  refine ⟨by simp [RecurringExpense.FREQUENCY_CHOICES], ?_, ?_, ?_⟩ <;>
    simp [generate_expense, assignExpenseStatus]

/-- Claim C5 (bug exhibit and remaining invariant). In the program as
written, `adjust_stock` never applies nor rejects anything: every call
raises `TypeError` (the `Decimal` stock plus the `float` adjustment),
which the `except ValueError` does not catch, and leaves the product
row unchanged — there is no guard-based rejection. The stocks can
still never go negative: `adjust_stock` never writes, `validate_entry`
only adds quantities (positive by the field validator), and
`complete_sale` only decrements under the sufficiency check, on its
partial-failure path included. -/
theorem adjust_stock_type_error_bug (p : Product) (a : Rat)
    (inv : Inventory) (hinv : ∀ i, 0 ≤ (inv i).current_stock)
    (e : Entry) (he : ∀ it ∈ e.items, EntryItem.quantityValid it)
    (s : Sale) :
    (adjust_stock p a).exn
      = some "TypeError: unsupported operand types for +: decimal.Decimal and float" ∧
    (adjust_stock p a).error = none ∧
    (adjust_stock p a).product = p ∧
    (∀ i, 0 ≤ ((validate_entry inv e).inv i).current_stock) ∧
    (∀ i, 0 ≤ ((complete_sale inv s).inv i).current_stock) := by
  refine ⟨rfl, rfl, rfl, fun i => ?_, fun i => ?_⟩
  · by_cases hs : e.status = "validated"
    · simpa [validate_entry, hs] using hinv i
    · have hcredit := (creditLoop_stock e.items inv i).1
      have hsum := sumQtyFor_nonneg e.items i he
      have hstock := hinv i
      simp only [validate_entry, hs, ite_false, if_neg]
      rw [hcredit]
      linarith
  · by_cases hc : s.statusCode = "completed"
    · simpa [complete_sale, hc] using hinv i
    · simp only [complete_sale, hc, ite_false, if_neg]
      exact decrementLoop_nonneg _ inv hinv i

/-- Witness for C5: an adjustment of -2 on stock 5 raises and changes
nothing, while a pending entry of qty 1 and a two-unit sale against
stock 3 end non-negative. -/
theorem adjust_stock_type_error_bug_witness :
    (adjust_stock ⟨"A", 5, 0⟩ (-2)).exn
      = some "TypeError: unsupported operand types for +: decimal.Decimal and float" ∧
    (adjust_stock ⟨"A", 5, 0⟩ (-2)).error = none ∧
    (adjust_stock ⟨"A", 5, 0⟩ (-2)).product = ⟨"A", 5, 0⟩ ∧
    0 ≤ ((validate_entry (fun _ => ⟨"B", 3, 0⟩)
          ⟨"PENDING", [⟨0, 1, 1, 0⟩]⟩).inv 0).current_stock ∧
    0 ≤ ((complete_sale (fun _ => ⟨"B", 3, 0⟩)
          ⟨"pending", 0, 0, 0, 0, "", [⟨0, 2, 1, 0, 0, 0⟩]⟩).inv 0).current_stock := by
  have H := adjust_stock_type_error_bug ⟨"A", 5, 0⟩ (-2)
    (fun _ => ⟨"B", 3, 0⟩) (fun _ => by norm_num)
    ⟨"PENDING", [⟨0, 1, 1, 0⟩]⟩
    (by
      intro it hit
      rw [List.mem_singleton] at hit
      subst hit
      norm_num [EntryItem.quantityValid])
    ⟨"pending", 0, 0, 0, 0, "", [⟨0, 2, 1, 0, 0, 0⟩]⟩
  exact ⟨H.1, H.2.1, H.2.2.1, H.2.2.2.1 0, H.2.2.2.2 0⟩

end Phenix
